import Mathlib

/-!
Verification of the password generation engine of the `oat` CLI
(`src/commands/password.rs`): the charset builder `build_character_set`,
the sampler `generate_password`, and the driver `password_action`.

Modelling conventions:
* Rust `char` is Lean `Char`; Rust `String` / `&str` character sequences
  are `List Char` (`String.data`).
* `std::collections::HashSet<char>` is modelled as a `List Char` kept
  duplicate-free by construction: `insert` adds a character only when
  absent, `remove` filters it out.  Iteration order of a `HashSet` is
  unspecified in Rust; the model fixes insertion order for the working
  set and exposes the unspecified order of `into_iter().collect()`
  through an explicit reordering parameter (`build_character_set_ord`).
* `rng.gen_range(0..n)` is modelled by an arbitrary stream
  `rng : Nat → Nat` reduced modulo `n`; quantifying over all streams
  covers every possible draw.  Rust's indexing `charset[i]`, which
  panics when out of bounds, is modelled with the fallible `List`
  lookup `l[i]?`, a `none` result standing for a panic.
* `as usize` on the 64-bit signed flag values wraps modulo `2 ^ 64`.
-/

namespace Oat

/-- The fixed literal pools of `build_character_set`. -/
def uppercase : String := "ABCDEFGHIJKLMNOPQRSTUVWXYZ"

def lowercase : String := "abcdefghijklmnopqrstuvwxyz"

def numbers : String := "0123456789"

def default_symbols : String := "!@#$%^&*()_+-=[]\x7b\x7d|;:,.<>?"

def ambiguous_chars : String := "0Ol1I"

/-- The single error message `build_character_set` can return; the spec
taxonomy calls this case `NoUsableCategory`. -/
def noUsableCategoryMsg : String := "No valid characters available for password generation"

/-- The message `password_action` prints when the built charset is empty;
the spec taxonomy calls this case `EmptyAlphabet`. -/
def emptyAlphabetMsg : String :=
  "No characters available for password generation. Check your exclusion rules."

/-- `HashSet::insert`: add a character only when it is not yet present. -/
def hsInsert (s : List Char) (c : Char) : List Char :=
  if c ∈ s then s else s ++ [c]

/-- `HashSet::extend`: insert every character of `cs` in turn. -/
def hsExtend (s : List Char) (cs : List Char) : List Char :=
  cs.foldl hsInsert s

/-- `HashSet::remove`: drop the character from the set. -/
def hsRemove (s : List Char) (c : Char) : List Char :=
  s.filter (fun x => x ≠ c)

/-- Rust `char::is_ascii_uppercase`. -/
def is_ascii_uppercase (c : Char) : Bool := 'A' ≤ c && c ≤ 'Z'

/-- Rust `char::is_ascii_lowercase`. -/
def is_ascii_lowercase (c : Char) : Bool := 'a' ≤ c && c ≤ 'z'

/-- Rust `char::is_ascii_digit`. -/
def is_ascii_digit (c : Char) : Bool := '0' ≤ c && c ≤ '9'

/-- Rust `char::is_ascii_alphanumeric`. -/
def is_ascii_alphanumeric (c : Char) : Bool :=
  is_ascii_uppercase c || is_ascii_lowercase c || is_ascii_digit c

/-- The `PasswordConfig` struct of `password.rs`. -/
structure PasswordConfig where
  length : Nat
  include_uppercase : Bool
  include_lowercase : Bool
  include_numbers : Bool
  include_symbols : Bool
  custom_symbols : Option String
  exclude_chars : List Char
  include_chars : List Char
  no_ambiguous : Bool
deriving DecidableEq

/-- The symbol pool used by the symbols category:
`config.custom_symbols.as_deref().unwrap_or(default_symbols)`. -/
def symbolsPool (config : PasswordConfig) : String :=
  config.custom_symbols.getD default_symbols

/-- Step 1 of `build_character_set`: union the pool of every enabled
category toggle into the working set. -/
def step1_categories (config : PasswordConfig) : List Char :=
  let charset : List Char := []
  let charset := if config.include_uppercase then hsExtend charset uppercase.data else charset
  let charset := if config.include_lowercase then hsExtend charset lowercase.data else charset
  let charset := if config.include_numbers then hsExtend charset numbers.data else charset
  if config.include_symbols then hsExtend charset (symbolsPool config).data else charset

/-- Step 2: `charset.extend(config.include_chars.iter())`. -/
def afterInclude (config : PasswordConfig) : List Char :=
  hsExtend (step1_categories config) config.include_chars

/-- Step 3: remove the ambiguous characters when `no_ambiguous` is set. -/
def afterAmbiguous (config : PasswordConfig) : List Char :=
  if config.no_ambiguous then
    ambiguous_chars.data.foldl hsRemove (afterInclude config)
  else
    afterInclude config

/-- Step 4: remove every excluded character.  This is the final content
of the working `HashSet` in `build_character_set`. -/
def buildCharsetWorking (config : PasswordConfig) : List Char :=
  config.exclude_chars.foldl hsRemove (afterAmbiguous config)

/-- The `has_required` boolean computed by `build_character_set` for
`length > 1`: some enabled category still has a surviving character of
its class in the working set. -/
def has_required (config : PasswordConfig) : Bool :=
  let charset := buildCharsetWorking config
  (config.include_uppercase && charset.any is_ascii_uppercase)
    || (config.include_lowercase && charset.any is_ascii_lowercase)
    || (config.include_numbers && charset.any is_ascii_digit)
    || (config.include_symbols && charset.any (fun c => !(is_ascii_alphanumeric c)))

/-- `build_character_set`, with the unspecified `HashSet` iteration order
of the final `into_iter().collect::<Vec<char>>()` made explicit as a
reordering function applied to the working set. -/
def build_character_set_ord (reorder : List Char → List Char)
    (config : PasswordConfig) : Except String (List Char) :=
  let charset := buildCharsetWorking config
  if 1 < config.length then
    if !has_required config && config.include_chars.isEmpty then
      .error noUsableCategoryMsg
    else
      .ok (reorder charset)
  else
    .ok (reorder charset)

/-- `build_character_set` under one fixed iteration order. -/
def build_character_set (config : PasswordConfig) : Except String (List Char) :=
  build_character_set_ord id config

/-- The loop body of `generate_password`, recursing over the number of
characters still to draw; `i` is the index of the draw in the random
stream.  A `none` result models the panic of an out-of-bounds index. -/
def genFrom (charset : List Char) (rng : Nat → Nat) (i : Nat) : Nat → Option (List Char)
  | 0 => some []
  | n + 1 =>
    (charset[rng i % charset.length]?).bind fun c =>
      (genFrom charset rng (i + 1) n).map fun rest => c :: rest

/-- `generate_password(charset, length)` with the random draws supplied
by the stream `rng`. -/
def generate_password (charset : List Char) (length : Nat) (rng : Nat → Nat) :
    Option (List Char) :=
  genFrom charset rng 0 length

/-- The `for i in 0..count` loop of `password_action`: password `i` uses
draws `i * length` to `i * length + length - 1` of the shared stream. -/
def genPasswords (charset : List Char) (length : Nat) (rng : Nat → Nat) (i : Nat) :
    Nat → Option (List (List Char))
  | 0 => some []
  | n + 1 =>
    (generate_password charset length fun j => rng (i * length + j)).bind fun p =>
      (genPasswords charset length rng (i + 1) n).map fun ps => p :: ps

/-- The flag values `password_action` reads from the CLI context. -/
structure PasswordFlags where
  length_flag : Option Int
  count_flag : Option Int
  no_uppercase : Bool
  no_lowercase : Bool
  no_numbers : Bool
  no_symbols : Bool
  symbols_flag : Option String
  exclude_flag : Option String
  include_flag : Option String
  no_ambiguous : Bool
deriving DecidableEq

/-- Rust `as usize` on a 64-bit signed value: wrap modulo `2 ^ 64`. -/
def usize_wrap (i : Int) : Nat := (i % (2 : Int) ^ 64).toNat

/-- `let length = c.int_flag("length").unwrap_or(12) as usize`. -/
def action_length (f : PasswordFlags) : Nat := usize_wrap (f.length_flag.getD 12)

/-- `let count = c.int_flag("count").unwrap_or(1) as usize`. -/
def action_count (f : PasswordFlags) : Nat := usize_wrap (f.count_flag.getD 1)

/-- The `PasswordConfig` that `password_action` builds from the flags. -/
def configOfFlags (f : PasswordFlags) : PasswordConfig :=
  { length := action_length f
    include_uppercase := !f.no_uppercase
    include_lowercase := !f.no_lowercase
    include_numbers := !f.no_numbers
    include_symbols := !f.no_symbols
    custom_symbols := f.symbols_flag
    exclude_chars := (f.exclude_flag.getD "").data
    include_chars := (f.include_flag.getD "").data
    no_ambiguous := f.no_ambiguous }

/-- The observable outcome of `password_action`; each error constructor
corresponds to one `eprintln!` site, `panicked` to an out-of-bounds
index inside `generate_password`. -/
inductive PasswordOutcome where
  /-- `Error: Password length must be greater than 0` -/
  | lengthZeroError : PasswordOutcome
  /-- `Error: Password count must be greater than 0` -/
  | countZeroError : PasswordOutcome
  /-- `Error: {e}` with the message returned by `build_character_set` -/
  | buildError (msg : String) : PasswordOutcome
  /-- the `charset.is_empty()` rejection (`emptyAlphabetMsg`) -/
  | emptyAlphabetError : PasswordOutcome
  /-- the generated passwords, in order -/
  | success (passwords : List (List Char)) : PasswordOutcome
  /-- a panic inside `generate_password` -/
  | panicked : PasswordOutcome
deriving DecidableEq

/-- `password_action`, with the random stream made explicit. -/
def password_action (f : PasswordFlags) (rng : Nat → Nat) : PasswordOutcome :=
  let length := action_length f
  let count := action_count f
  if length = 0 then .lengthZeroError
  else if count = 0 then .countZeroError
  else
    match build_character_set (configOfFlags f) with
    | .error e => .buildError e
    | .ok charset =>
      if charset.isEmpty then .emptyAlphabetError
      else
        match genPasswords charset length rng 0 count with
        | none => .panicked
        | some ps => .success ps

/-- Scenario D of the spec: all categories disabled, `include_chars = ['x']`,
length 2. -/
def scenarioD : PasswordConfig :=
  ⟨2, false, false, false, false, none, [], ['x'], false⟩

/-- Scenario E of the spec: all categories disabled, no `include_chars`,
length 5. -/
def scenarioE : PasswordConfig :=
  ⟨5, false, false, false, false, none, [], [], false⟩

/-- CLI flags from which `password_action` builds exactly `scenarioE`. -/
def scenarioE_flags : PasswordFlags :=
  ⟨some 5, none, true, true, true, true, none, none, none, false⟩

/-- A config for which `build_character_set` returns `Ok` with an empty
vector: length 1, all categories disabled, nothing included. -/
def emptyOkConfig : PasswordConfig :=
  ⟨1, false, false, false, false, none, [], [], false⟩

/-- A config whose manual includes are entirely cancelled by the excludes:
the usable-category check passes but the returned alphabet is empty. -/
def cancelledConfig : PasswordConfig :=
  ⟨5, false, false, false, false, none, ['x'], ['x'], false⟩

/-- A fixed random stream for concrete evaluations. -/
def rng0 : Nat → Nat := fun _ => 0

/-! ### Lemmas about the `HashSet` model -/

theorem mem_hsInsert {s : List Char} {a c : Char} : c ∈ hsInsert s a ↔ c ∈ s ∨ c = a := by
  unfold hsInsert
  split
  · rename_i ha
    constructor
    · exact Or.inl
    · rintro (hc | rfl)
      · exact hc
      · exact ha
  · simp [List.mem_append]

theorem nodup_hsInsert {s : List Char} (h : s.Nodup) (a : Char) : (hsInsert s a).Nodup := by
  unfold hsInsert
  split
  · exact h
  · rename_i ha
    simp [List.nodup_append, h, ha]

theorem mem_hsExtend {l s : List Char} {c : Char} : c ∈ hsExtend s l ↔ c ∈ s ∨ c ∈ l := by
  induction l generalizing s with
  | nil => simp [hsExtend]
  | cons a l ih =>
    show c ∈ hsExtend (hsInsert s a) l ↔ _
    rw [ih, mem_hsInsert]
    simp [List.mem_cons, or_assoc]

theorem nodup_hsExtend {l s : List Char} (h : s.Nodup) : (hsExtend s l).Nodup := by
  induction l generalizing s with
  | nil => exact h
  | cons a l ih =>
    show (hsExtend (hsInsert s a) l).Nodup
    exact ih (nodup_hsInsert h a)

theorem mem_hsRemove {s : List Char} {a c : Char} : c ∈ hsRemove s a ↔ c ∈ s ∧ c ≠ a := by
  simp [hsRemove, List.mem_filter]

theorem nodup_hsRemove {s : List Char} (h : s.Nodup) (a : Char) : (hsRemove s a).Nodup :=
  h.filter _

theorem mem_removeAll {l s : List Char} {c : Char} :
    c ∈ l.foldl hsRemove s ↔ c ∈ s ∧ c ∉ l := by
  induction l generalizing s with
  | nil => simp
  | cons a l ih =>
    show c ∈ l.foldl hsRemove (hsRemove s a) ↔ _
    rw [ih, mem_hsRemove]
    simp [List.mem_cons]
    tauto

theorem nodup_removeAll {l s : List Char} (h : s.Nodup) : (l.foldl hsRemove s).Nodup := by
  induction l generalizing s with
  | nil => exact h
  | cons a l ih => exact ih (nodup_hsRemove h a)

/-! ### Membership in the stages of `build_character_set` -/

theorem mem_step1 {config : PasswordConfig} {c : Char} :
    c ∈ step1_categories config ↔
      (config.include_uppercase = true ∧ c ∈ uppercase.data)
      ∨ (config.include_lowercase = true ∧ c ∈ lowercase.data)
      ∨ (config.include_numbers = true ∧ c ∈ numbers.data)
      ∨ (config.include_symbols = true ∧ c ∈ (symbolsPool config).data) := by
  rcases config with ⟨len, up, low, num, sym, cs, ex, inc, na⟩
  unfold step1_categories
  dsimp only
  cases up <;> cases low <;> cases num <;> cases sym <;>
    simp [mem_hsExtend, or_assoc]

theorem mem_afterInclude {config : PasswordConfig} {c : Char} :
    c ∈ afterInclude config ↔ c ∈ step1_categories config ∨ c ∈ config.include_chars :=
  mem_hsExtend

theorem mem_afterAmbiguous {config : PasswordConfig} {c : Char} :
    c ∈ afterAmbiguous config ↔
      c ∈ afterInclude config ∧ (config.no_ambiguous = true → c ∉ ambiguous_chars.data) := by
  unfold afterAmbiguous
  split
  · rename_i h
    rw [mem_removeAll]
    simp [h]
  · rename_i h
    simp [h]

theorem mem_buildCharsetWorking {config : PasswordConfig} {c : Char} :
    c ∈ buildCharsetWorking config ↔
      c ∈ afterAmbiguous config ∧ c ∉ config.exclude_chars :=
  mem_removeAll

theorem nodup_extendIf {s l : List Char} (p : Prop) [Decidable p] (h : s.Nodup) :
    (if p then hsExtend s l else s).Nodup := by
  split
  · exact nodup_hsExtend h
  · exact h

theorem nodup_step1 (config : PasswordConfig) : (step1_categories config).Nodup := by
  unfold step1_categories
  dsimp only
  apply nodup_extendIf
  apply nodup_extendIf
  apply nodup_extendIf
  apply nodup_extendIf
  exact List.nodup_nil

theorem nodup_afterInclude (config : PasswordConfig) : (afterInclude config).Nodup :=
  nodup_hsExtend (nodup_step1 config)

theorem nodup_afterAmbiguous (config : PasswordConfig) : (afterAmbiguous config).Nodup := by
  unfold afterAmbiguous
  split
  · exact nodup_removeAll (nodup_afterInclude config)
  · exact nodup_afterInclude config

theorem nodup_buildCharsetWorking (config : PasswordConfig) :
    (buildCharsetWorking config).Nodup :=
  nodup_removeAll (nodup_afterAmbiguous config)

/-- Canonical form of `build_character_set_ord`. -/
theorem build_ord_eq (reorder : List Char → List Char) (config : PasswordConfig) :
    build_character_set_ord reorder config =
      if 1 < config.length ∧ has_required config = false ∧ config.include_chars = []
      then .error noUsableCategoryMsg
      else .ok (reorder (buildCharsetWorking config)) := by
  unfold build_character_set_ord
  dsimp only
  by_cases h1 : 1 < config.length
  · by_cases h2 : has_required config = false ∧ config.include_chars = []
    · have hb : (!has_required config && config.include_chars.isEmpty) = true := by
        simp [h2.1, h2.2]
      rw [if_pos h1, if_pos hb, if_pos ⟨h1, h2⟩]
    · have hb : ¬ (!has_required config && config.include_chars.isEmpty) = true := by
        simp only [Bool.and_eq_true, Bool.not_eq_true', List.isEmpty_iff]
        exact h2
      rw [if_pos h1, if_neg hb, if_neg fun hc => h2 hc.2]
  · rw [if_neg h1, if_neg fun hc => h1 hc.1]

/-- Inversion for a successful build under one fixed iteration order. -/
theorem build_ok_eq {config : PasswordConfig} {cs : List Char}
    (h : build_character_set config = .ok cs) : cs = buildCharsetWorking config := by
  unfold build_character_set at h
  rw [build_ord_eq] at h
  split at h
  · cases h
  · cases h
    rfl

/-! ### Lemmas about the sampler -/

theorem genFrom_isSome {charset : List Char} (hne : charset ≠ []) (rng : Nat → Nat) :
    ∀ n i, ∃ p, genFrom charset rng i n = some p := by
  intro n
  induction n with
  | zero => exact fun i => ⟨[], rfl⟩
  | succ n ih =>
    intro i
    have hlen : 0 < charset.length := List.length_pos.mpr hne
    have hidx : rng i % charset.length < charset.length := Nat.mod_lt _ hlen
    obtain ⟨p, hp⟩ := ih (i + 1)
    exact ⟨charset[rng i % charset.length] :: p, by
      simp [genFrom, List.getElem?_eq_getElem hidx, hp]⟩

theorem genFrom_length {charset : List Char} {rng : Nat → Nat} :
    ∀ {n i p}, genFrom charset rng i n = some p → p.length = n := by
  intro n
  induction n with
  | zero =>
    intro i p h
    simp only [genFrom] at h
    cases h
    rfl
  | succ n ih =>
    intro i p h
    simp only [genFrom, Option.bind_eq_some, Option.map_eq_some'] at h
    obtain ⟨c, _, rest, hrest, rfl⟩ := h
    simp [ih hrest]

theorem genFrom_mem {charset : List Char} {rng : Nat → Nat} :
    ∀ {n i p}, genFrom charset rng i n = some p → ∀ c ∈ p, c ∈ charset := by
  intro n
  induction n with
  | zero =>
    intro i p h
    simp only [genFrom] at h
    cases h
    intro c hc
    cases hc
  | succ n ih =>
    intro i p h
    simp only [genFrom, Option.bind_eq_some, Option.map_eq_some'] at h
    obtain ⟨c, hc, rest, hrest, rfl⟩ := h
    intro d hd
    rcases List.mem_cons.mp hd with rfl | hd
    · obtain ⟨hlt, rfl⟩ := List.getElem?_eq_some.mp hc
      exact List.getElem_mem _
    · exact ih hrest d hd

theorem generate_password_isSome {charset : List Char} (hne : charset ≠ [])
    (length : Nat) (rng : Nat → Nat) :
    ∃ p, generate_password charset length rng = some p :=
  genFrom_isSome hne rng length 0

theorem genPasswords_isSome {charset : List Char} (hne : charset ≠ [])
    (length : Nat) (rng : Nat → Nat) :
    ∀ n i, ∃ ps, genPasswords charset length rng i n = some ps := by
  intro n
  induction n with
  | zero => exact fun i => ⟨[], rfl⟩
  | succ n ih =>
    intro i
    obtain ⟨p, hp⟩ := generate_password_isSome hne length (fun j => rng (i * length + j))
    obtain ⟨ps, hps⟩ := ih (i + 1)
    exact ⟨p :: ps, by simp [genPasswords, hp, hps]⟩

/-! ### The claims -/

/-- C1: for every valid constraint spec (one whose built alphabet is
non-empty), every generated password has exactly `length` characters and
every character of it is a member of the alphabet computed by
`build_character_set` — for all possible draws of the random source. -/
theorem c1_password_length_and_membership (config : PasswordConfig) (cs : List Char)
    (rng : Nat → Nat) (hb : build_character_set config = .ok cs) (hne : cs ≠ []) :
    ∃ p, generate_password cs config.length rng = some p ∧
      p.length = config.length ∧ ∀ c ∈ p, c ∈ cs := by
  obtain ⟨p, hp⟩ := generate_password_isSome hne config.length rng
  exact ⟨p, hp, genFrom_length hp, genFrom_mem hp⟩

/-- Witness for C1 at a concrete spec and stream. -/
theorem c1_password_length_and_membership_witness :
    ∃ p, generate_password ['x', 'y'] 2 rng0 = some p ∧
      p.length = 2 ∧ ∀ c ∈ p, c ∈ ['x', 'y'] :=
  c1_password_length_and_membership
    ⟨2, false, false, false, false, none, [], ['x', 'y'], false⟩
    ['x', 'y'] rng0 rfl (by decide)

/-- C2: exclusion wins over inclusion — every character of
`exclude_chars` is absent from the built alphabet, even when it is also
in `include_chars`, and therefore never appears in a generated
password. -/
theorem c2_exclusion_wins (config : PasswordConfig) (c : Char) (cs : List Char)
    (rng : Nat → Nat) (p : List Char)
    (hc : c ∈ config.exclude_chars)
    (hb : build_character_set config = .ok cs)
    (hp : generate_password cs config.length rng = some p) :
    c ∉ cs ∧ c ∉ p := by
  have hcs : c ∉ cs := by
    rw [build_ok_eq hb, mem_buildCharsetWorking]
    rintro ⟨-, hex⟩
    exact hex hc
  exact ⟨hcs, fun hcp => hcs (genFrom_mem hp c hcp)⟩

/-- Witness for C2: `'y'` is both included and excluded; it survives in
neither the alphabet nor the generated password. -/
theorem c2_exclusion_wins_witness : 'y' ∉ ['x'] ∧ 'y' ∉ ['x', 'x'] :=
  c2_exclusion_wins
    ⟨2, false, false, false, false, none, ['y'], ['x', 'y'], false⟩
    'y' ['x'] rng0 ['x', 'x'] (by decide) rfl rfl

/-- C5: with `no_ambiguous = true`, no ambiguous character (`0Ol1I`) is in
the built alphabet — regardless of category toggles and of
`include_chars` — and hence never appears in a generated password. -/
theorem c5_no_ambiguous_excluded (config : PasswordConfig) (c : Char) (cs : List Char)
    (rng : Nat → Nat) (p : List Char)
    (hna : config.no_ambiguous = true)
    (hc : c ∈ ambiguous_chars.data)
    (hb : build_character_set config = .ok cs)
    (hp : generate_password cs config.length rng = some p) :
    c ∉ cs ∧ c ∉ p := by
  have hcs : c ∉ cs := by
    rw [build_ok_eq hb, mem_buildCharsetWorking, mem_afterAmbiguous]
    rintro ⟨⟨-, hamb⟩, -⟩
    exact hamb hna hc
  exact ⟨hcs, fun hcp => hcs (genFrom_mem hp c hcp)⟩

/-- Witness for C5: `'0'` is explicitly included but removed by the
ambiguity rule. -/
theorem c5_no_ambiguous_excluded_witness : '0' ∉ ['x'] ∧ '0' ∉ ['x', 'x'] :=
  c5_no_ambiguous_excluded
    ⟨2, false, false, false, false, none, [], ['0', 'x'], true⟩
    '0' ['x'] rng0 ['x', 'x'] rfl (by decide) rfl rfl

/-- C8: a successfully built alphabet contains no duplicate characters. -/
theorem c8_alphabet_nodup (config : PasswordConfig) (cs : List Char)
    (hb : build_character_set config = .ok cs) : cs.Nodup := by
  rw [build_ok_eq hb]
  exact nodup_buildCharsetWorking config

/-- Witness for C8 at a concrete spec. -/
theorem c8_alphabet_nodup_witness : (['x'] : List Char).Nodup :=
  c8_alphabet_nodup scenarioD ['x'] rfl

/-- C4: with `length > 1`, if no enabled category has a surviving
character of its class and `include_chars` is empty, the build fails
with the `NoUsableCategory` message; with non-empty `include_chars` the
build never fails; and Scenario D succeeds with alphabet exactly
`['x']`. -/
theorem c4_usable_category_check (config : PasswordConfig) (h1 : 1 < config.length) :
    (has_required config = false → config.include_chars = [] →
      build_character_set config = .error noUsableCategoryMsg)
    ∧ (config.include_chars ≠ [] → ∃ cs, build_character_set config = .ok cs)
    ∧ build_character_set scenarioD = .ok ['x'] := by
  refine ⟨?_, ?_, rfl⟩
  · intro hr hi
    unfold build_character_set
    rw [build_ord_eq, if_pos ⟨h1, hr, hi⟩]
  · intro hi
    unfold build_character_set
    rw [build_ord_eq, if_neg fun hc => hi hc.2.2]
    exact ⟨_, rfl⟩

/-- Witness for C4: Scenario E trips the usable-category error, Scenario
D passes it thanks to the manual include. -/
theorem c4_usable_category_check_witness :
    build_character_set scenarioE = .error noUsableCategoryMsg
    ∧ ∃ cs, build_character_set scenarioD = .ok cs :=
  ⟨(c4_usable_category_check scenarioE (by decide)).1 rfl rfl,
   (c4_usable_category_check scenarioD (by decide)).2.1 (by decide)⟩

/-- C6: when the symbols toggle is on and `custom_symbols` is present,
the symbols category contributes exactly the custom characters (no
default symbol enters from that category); when the toggle is off,
`custom_symbols` has no effect on the built alphabet. -/
theorem c6_custom_symbols_replace_default (config : PasswordConfig) :
    (∀ s : String, config.include_symbols = true → config.custom_symbols = some s →
      ∀ c : Char, c ∈ step1_categories config ↔
        (config.include_uppercase = true ∧ c ∈ uppercase.data)
        ∨ (config.include_lowercase = true ∧ c ∈ lowercase.data)
        ∨ (config.include_numbers = true ∧ c ∈ numbers.data)
        ∨ c ∈ s.data)
    ∧ (config.include_symbols = false → ∀ s : String,
        build_character_set { config with custom_symbols := some s }
          = build_character_set { config with custom_symbols := none }) := by
  constructor
  · intro s hsym hcust c
    rw [mem_step1]
    simp [hsym, symbolsPool, hcust]
  · intro hsym s
    have hstep : step1_categories { config with custom_symbols := some s }
        = step1_categories { config with custom_symbols := none } := by
      unfold step1_categories
      dsimp only
      rw [hsym]
      simp
    have hwork : buildCharsetWorking { config with custom_symbols := some s }
        = buildCharsetWorking { config with custom_symbols := none } := by
      unfold buildCharsetWorking afterAmbiguous afterInclude
      dsimp only
      rw [hstep]
    have hreq : has_required { config with custom_symbols := some s }
        = has_required { config with custom_symbols := none } := by
      unfold has_required
      dsimp only
      rw [hwork, hsym]
    unfold build_character_set
    rw [build_ord_eq, build_ord_eq]
    dsimp only
    rw [hreq, hwork]

/-- Witness for C6: with a custom pool `"+"` the symbols category adds
exactly `'+'`; with the toggle off a custom pool changes nothing. -/
theorem c6_custom_symbols_replace_default_witness :
    ('+' ∈ step1_categories ⟨2, false, false, false, true, some "+", [], [], false⟩ ↔
      (false = true ∧ '+' ∈ uppercase.data)
      ∨ (false = true ∧ '+' ∈ lowercase.data)
      ∨ (false = true ∧ '+' ∈ numbers.data)
      ∨ '+' ∈ "+".data)
    ∧ build_character_set ⟨2, true, false, false, false, some "@", [], [], false⟩
        = build_character_set ⟨2, true, false, false, false, none, [], [], false⟩ :=
  ⟨(c6_custom_symbols_replace_default
      ⟨2, false, false, false, true, some "+", [], [], false⟩).1 "+" rfl rfl '+',
   (c6_custom_symbols_replace_default
      ⟨2, true, false, false, false, none, [], [], false⟩).2 rfl "@"⟩

/-- C7: the builder is deterministic up to set equality — under any two
iteration orders of the working `HashSet`, equal specs yield alphabets
with exactly the same characters (or the same error). -/
theorem c7_deterministic_up_to_set_equality
    (reorder₁ reorder₂ : List Char → List Char)
    (h₁ : ∀ l : List Char, (reorder₁ l).toFinset = l.toFinset)
    (h₂ : ∀ l : List Char, (reorder₂ l).toFinset = l.toFinset)
    (config₁ config₂ : PasswordConfig) (he : config₁ = config₂) :
    (build_character_set_ord reorder₁ config₁).map List.toFinset
      = (build_character_set_ord reorder₂ config₂).map List.toFinset := by
  subst he
  rw [build_ord_eq, build_ord_eq]
  split
  · rfl
  · simp only [Except.map]
    rw [h₁, h₂]

/-- Witness for C7: identity order versus reversed order on Scenario D. -/
theorem c7_deterministic_up_to_set_equality_witness :
    (build_character_set_ord id scenarioD).map List.toFinset
      = (build_character_set_ord List.reverse scenarioD).map List.toFinset :=
  c7_deterministic_up_to_set_equality id List.reverse (fun _ => rfl)
    (fun _ => List.toFinset_reverse) scenarioD scenarioD rfl

/-- C3 counterexample: on Scenario E (all categories disabled, no
includes, length 5) the build fails with the `NoUsableCategory` message
— the `length > 1` check fires before any emptiness check — and not
with the `EmptyAlphabet` rejection the claim names. -/
theorem c3_counterexample :
    build_character_set scenarioE = .error noUsableCategoryMsg
    ∧ password_action scenarioE_flags rng0 = .buildError noUsableCategoryMsg
    ∧ noUsableCategoryMsg ≠ emptyAlphabetMsg
    ∧ PasswordOutcome.buildError noUsableCategoryMsg ≠ .emptyAlphabetError :=
  ⟨rfl, rfl, by decide, by decide⟩

/-- C3 (amended): when the working set is empty after all steps, the
build fails with the `NoUsableCategory` message when `length > 1` and
`include_chars` is empty, and otherwise returns `Ok` with an empty
alphabet (which `password_action` then rejects with the
`EmptyAlphabet` message); in particular Scenario E fails with
`NoUsableCategory`, not `EmptyAlphabet`. -/
theorem c3_empty_working_set (config : PasswordConfig)
    (h : buildCharsetWorking config = []) :
    build_character_set config =
      (if 1 < config.length ∧ config.include_chars = []
        then .error noUsableCategoryMsg else .ok [])
    ∧ build_character_set scenarioE = .error noUsableCategoryMsg
    ∧ password_action scenarioE_flags rng0 = .buildError noUsableCategoryMsg
    ∧ (∀ rng : Nat → Nat, password_action
        ⟨some 1, none, true, true, true, true, none, none, none, false⟩ rng
          = .emptyAlphabetError) := by
  refine ⟨?_, rfl, rfl, fun rng => rfl⟩
  have hr : has_required config = false := by
    unfold has_required
    rw [h]
    simp
  unfold build_character_set
  rw [build_ord_eq]
  by_cases hc : 1 < config.length ∧ config.include_chars = []
  · rw [if_pos ⟨hc.1, hr, hc.2⟩, if_pos hc]
  · rw [if_neg fun hx => hc ⟨hx.1, hx.2.2⟩, if_neg hc, h]
    rfl

/-- Witness for C3 (amended) at Scenario E. -/
theorem c3_empty_working_set_witness :
    build_character_set scenarioE =
      (if 1 < scenarioE.length ∧ scenarioE.include_chars = []
        then .error noUsableCategoryMsg else .ok []) :=
  (c3_empty_working_set scenarioE rfl).1

/-- C9: the sampler never indexes out of bounds when the alphabet is
non-empty; `password_action` never reaches a panic because it rejects
an empty charset before sampling; yet `build_character_set` can return
`Ok` with an empty vector (length 1 with everything disabled, or manual
includes entirely cancelled by excludes). -/
theorem c9_sampler_in_bounds :
    (∀ (charset : List Char) (length : Nat) (rng : Nat → Nat), charset ≠ [] →
      ∃ p, generate_password charset length rng = some p ∧ p.length = length)
    ∧ (∀ (f : PasswordFlags) (rng : Nat → Nat), password_action f rng ≠ .panicked)
    ∧ build_character_set emptyOkConfig = .ok []
    ∧ build_character_set cancelledConfig = .ok [] := by
  refine ⟨?_, ?_, rfl, rfl⟩
  · intro charset length rng hne
    obtain ⟨p, hp⟩ := generate_password_isSome hne length rng
    exact ⟨p, hp, genFrom_length hp⟩
  · intro f rng
    unfold password_action
    dsimp only
    split
    · simp
    · split
      · simp
      · split
        · simp
        · rename_i charset heq
          split
          · simp
          · rename_i hemp
            have hne : charset ≠ [] := by
              intro hnil
              rw [hnil] at hemp
              exact hemp rfl
            obtain ⟨ps, hps⟩ :=
              genPasswords_isSome hne (action_length f) rng (action_count f) 0
            rw [hps]
            simp

/-- Witness for C9 at a concrete alphabet, and at Scenario E's flags. -/
theorem c9_sampler_in_bounds_witness :
    (∃ p, generate_password ['a'] 3 rng0 = some p ∧ p.length = 3)
    ∧ password_action scenarioE_flags rng0 ≠ .panicked :=
  ⟨c9_sampler_in_bounds.1 ['a'] 3 rng0 (by decide),
   c9_sampler_in_bounds.2.1 scenarioE_flags rng0⟩

/-- C10: a negative `length` (or `count`) flag value is converted with
`as usize`, wrapping modulo `2 ^ 64`, so it passes the `== 0` rejection
and is treated as a huge positive value (at least `2 ^ 63`) instead of
being rejected. -/
theorem c10_negative_flag_wraps (i : Int) (hlo : -(2 : Int) ^ 63 ≤ i) (hhi : i < 0)
    (f g : PasswordFlags) (hf : f.length_flag = some i) (hg : g.count_flag = some i) :
    usize_wrap i = ((2 : Int) ^ 64 + i).toNat
    ∧ 2 ^ 63 ≤ usize_wrap i
    ∧ action_length f = usize_wrap i ∧ action_length f ≠ 0
    ∧ action_count g = usize_wrap i ∧ action_count g ≠ 0
    ∧ (∀ rng : Nat → Nat, password_action f rng ≠ .lengthZeroError) := by
  have hp64 : (2 : Int) ^ 64 = 18446744073709551616 := by norm_num
  have hp63 : (2 : Int) ^ 63 = 9223372036854775808 := by norm_num
  rw [hp63] at hlo
  have h1 : usize_wrap i = ((2 : Int) ^ 64 + i).toNat := by
    unfold usize_wrap
    rw [hp64]
    omega
  have h2 : 2 ^ 63 ≤ usize_wrap i := by
    have hn : (2 : Nat) ^ 63 = 9223372036854775808 := by norm_num
    rw [h1, hp64, hn]
    omega
  have hlf : action_length f = usize_wrap i := by
    unfold action_length
    rw [hf]
    rfl
  have hlf0 : action_length f ≠ 0 := by
    rw [hlf]
    have hn : (2 : Nat) ^ 63 = 9223372036854775808 := by norm_num
    rw [hn] at h2
    omega
  have hcg : action_count g = usize_wrap i := by
    unfold action_count
    rw [hg]
    rfl
  have hcg0 : action_count g ≠ 0 := by
    rw [hcg]
    have hn : (2 : Nat) ^ 63 = 9223372036854775808 := by norm_num
    rw [hn] at h2
    omega
  refine ⟨h1, h2, hlf, hlf0, hcg, hcg0, ?_⟩
  intro rng
  unfold password_action
  dsimp only
  rw [if_neg hlf0]
  split
  · simp
  · split
    · simp
    · split
      · simp
      · split <;> simp

/-- Witness for C10: a `length` flag of `-1` wraps to `2 ^ 64 - 1` and is
not rejected by the zero check. -/
theorem c10_negative_flag_wraps_witness :
    usize_wrap (-1) = ((2 : Int) ^ 64 + (-1)).toNat ∧ 2 ^ 63 ≤ usize_wrap (-1) :=
  ⟨(c10_negative_flag_wraps (-1) (by norm_num) (by norm_num)
      ⟨some (-1), none, false, false, false, false, none, none, none, false⟩
      ⟨none, some (-1), false, false, false, false, none, none, none, false⟩
      rfl rfl).1,
   (c10_negative_flag_wraps (-1) (by norm_num) (by norm_num)
      ⟨some (-1), none, false, false, false, false, none, none, none, false⟩
      ⟨none, some (-1), false, false, false, false, none, none, none, false⟩
      rfl rfl).2.1⟩

end Oat
